import Mathlib

/-!
Shallow embedding of the `avocado-ec2` plugin (files
`avocado_ec2/ec2_wrapper.py` and `avocado_ec2/plugins/ec2.py`) together
with theorems settling the specification claims about it.

The embedding mirrors the Python sources statement by statement:
  * external cloud calls (`create_key_pair`, `create_instances`,
    `terminate`, `delete`) act on an explicit `CloudState`;
  * the two process-wide lists `EC2_INSTANCES` and `EC2_KEYPAIR_WRAPPERS`
    are an explicit `Registries` record threaded through every operation;
  * statements that can raise are modelled with an explicit failure-point
    parameter (`FailPoint`): an execution of the provisioning sequence is
    indexed by the step, if any, at which an exception is raised;
  * Python `list.remove` (which raises `ValueError` when the element is
    absent) is `listRemove` returning `Except`.
-/

/-! ## Distribution-specific install selection (`plugins/ec2.py`) -/

/-- `VALID_DISTROS_MSG` from `plugins/ec2.py`. -/
def VALID_DISTROS_MSG : List String :=
  ["fedora (for Fedora > 22)",
   "el (for RHEL/CentOS > 6.0)",
   "ubuntu (for Ubuntu > 14.04)"]

/-- Python `s.split()[0]`: the first whitespace-delimited token of `s`
(defined structurally over the character list so it evaluates in the
kernel; the `VALID_DISTROS_MSG` entries contain no leading whitespace,
where `split()[0]` coincides with take-until-first-space). -/
def pyFirstToken (s : String) : String :=
  String.mk (s.toList.takeWhile (fun c => c ≠ ' '))

/-- `VALID_DISTROS = [distro.split()[0] for distro in VALID_DISTROS_MSG]`. -/
def VALID_DISTROS : List String :=
  VALID_DISTROS_MSG.map pyFirstToken

/-- A call `self.remote.run(cmd, timeout=t)` made on the remote instance. -/
structure RemoteCall where
  cmd : String
  timeout : Nat
deriving DecidableEq, Repr

/-- Errors the embedded Python code can raise. -/
inductive PyError
  /-- `ValueError` (bad distro type, or `list.remove` on an absent element). -/
  | valueError
  /-- `TypeError` (calling a function with the wrong number of arguments). -/
  | typeError
  /-- An exception coming from a cloud API call. -/
  | apiError
  /-- `OSError` / `IOError` from a filesystem operation. -/
  | osError
deriving DecidableEq, Repr

/-- `EC2TestResult._install_avocado(self, distro_type)`: validates
`distro_type` against `VALID_DISTROS` (raising `ValueError` before any
remote command when invalid), selects the hard-coded
`retrieve_cmd`/`install_cmd` pair, and runs both remotely with
`timeout=300`.  The result is the list of remote calls performed, in
order; an error means the exception was raised with no remote call run
(the `self.remote.run` lines come after the whole `if` chain). -/
def install_avocado (distro_type : String) : Except PyError (List RemoteCall) :=
  if distro_type ∉ VALID_DISTROS then
    .error .valueError
  else
    let cmds : Option String × Option String :=
      if distro_type = "fedora" then
        (some ("sudo curl https://repos-avocadoproject.rhcloud.com/static/avocado-fedora.repo" ++
               " -o /etc/yum.repos.d/avocado.repo"),
         some "sudo dnf install -y avocado")
      else if distro_type = "el" then
        (some ("sudo curl https://repos-avocadoproject.rhcloud.com/static/avocado-el.repo" ++
               " -o /etc/yum.repos.d/avocado.repo"),
         some "sudo yum install -y avocado")
      else if distro_type = "ubuntu" then
        (some ("sudo echo \"deb http://ppa.launchpad.net/lmr/avocado/ubuntu wily main\"" ++
               " > /etc/apt/sources.list.d/avocado.list"),
         some "sudo apt-get install --yes --allow-unauthenticated avocado")
      else (none, none)
    match cmds with
    | (some retrieve_cmd, some install_cmd) =>
        .ok [⟨retrieve_cmd, 300⟩, ⟨install_cmd, 300⟩]
    | _ => .error .typeError

deriving instance DecidableEq for Except

/-! ## CLI plugin `EC2Run` (`plugins/ec2.py`) -/

/-- `avocado.core.exit_codes.AVOCADO_FAIL`, the host framework's generic
failure exit code.  The host framework is not part of this repository; the
constant is abstract here and only compared with itself. -/
def AVOCADO_FAIL : Nat := 1

/-- Python truthiness of an argparse attribute value as tested by
`not getattr(args, arg)`: `None` and the empty string are falsy, any
non-empty string is truthy. -/
def truthy : Option String → Bool
  | none => false
  | some s => !(s == "")

/-- The parsed-arguments namespace, restricted to the attributes the
`EC2Run` plugin reads and writes.  `has_ec2_args` models
`hasattr(args, 'ec2_ami_id')`: the EC2 attribute group exists only when
`configure` found a `run` subcommand parser and added the arguments. -/
structure AppArgs where
  has_ec2_args : Bool
  ec2_ami_id : Option String
  ec2_security_group_ids : Option String
  ec2_subnet_id : Option String
  ec2_instance_type : Option String
  /-- `args.remote_result`, holding the name of the result class stored. -/
  remote_result : Option String
  /-- `args.test_runner`, holding the name of the runner class stored. -/
  test_runner : Option String
deriving DecidableEq, Repr

/-- `getattr(args, name)` for the attribute names `EC2Run.run` passes to
`_check_required_args`. -/
def pygetattr (args : AppArgs) (name : String) : Option String :=
  if name = "ec2_ami_id" then args.ec2_ami_id
  else if name = "ec2_security_group_ids" then args.ec2_security_group_ids
  else if name = "ec2_subnet_id" then args.ec2_subnet_id
  else if name = "ec2_instance_type" then args.ec2_instance_type
  else none

/-- `EC2Run._check_required_args(args, enable_arg, required_args)` (the
second, shadowing definition in the class body): returns `False` when the
enabling attribute is missing or falsy, exits with `AVOCADO_FAIL`
(modelled as `.error AVOCADO_FAIL`) when any required attribute is falsy,
and returns `True` otherwise. -/
def check_required_args (args : AppArgs) (enable_arg : String)
    (required_args : List String) : Except Nat Bool :=
  if !args.has_ec2_args || !truthy (pygetattr args enable_arg) then
    .ok false
  else
    let missing := required_args.filter (fun arg => !truthy (pygetattr args arg))
    if missing.isEmpty then .ok true else .error AVOCADO_FAIL

/-- `EC2Run.run(self, args)`: when `_check_required_args` returns `True`,
sets `args.remote_result = EC2TestResult` and
`args.test_runner = RemoteTestRunner`; otherwise leaves `args` unchanged
(or propagates the `sys.exit`). -/
def EC2Run.run (args : AppArgs) : Except Nat AppArgs :=
  match check_required_args args "ec2_ami_id"
      ["ec2_ami_id", "ec2_security_group_ids", "ec2_subnet_id",
       "ec2_instance_type"] with
  | .error code => .error code
  | .ok true => .ok { args with remote_result := some "EC2TestResult",
                                test_runner := some "RemoteTestRunner" }
  | .ok false => .ok args

/-! ## `EC2InstanceWrapper.wait_public_ip` (`ec2_wrapper.py`) -/

/-- One action of the polling loop body: `time.sleep(1)` or
`self.instance.reload()`. -/
inductive WaitEvent
  | sleep (seconds : Nat)
  | reload
deriving DecidableEq, Repr

/-- `EC2InstanceWrapper.wait_public_ip`.  The successive values the
instance reports for `public_ip_address` form a stream
`ip : Nat → Option String` (`ip n` is the value visible after `n`
`reload` calls).  `login_timeout` mirrors the parsed
`args.ec2_login_timeout` option, in scope for the wrapper but never read
by the loop.  `fuel` bounds how many iterations the model unfolds — the
source loop has no bound of its own, so the source loop terminates
exactly when some `fuel` makes the model return `some`; the returned
trace lists the `sleep`/`reload` calls performed. -/
def wait_public_ip (login_timeout : Nat) (ip : Nat → Option String) :
    Nat → Nat → Option (List WaitEvent)
  | k, 0 => if (ip k).isSome then some [] else none
  | k, fuel + 1 =>
    if (ip k).isSome then some []
    else
      (wait_public_ip login_timeout ip (k + 1) fuel).map
        (fun tr => WaitEvent.sleep 1 :: WaitEvent.reload :: tr)

/-! ## Keypair and instance lifecycle (`ec2_wrapper.py`) -/

/-- The cloud-side resources currently alive on EC2. -/
structure CloudState where
  /-- Names of keypairs existing on the EC2 side. -/
  keyPairs : List String
  /-- Ids of instances existing (not terminated) on the EC2 side. -/
  instances : List String
deriving DecidableEq, Repr

/-- A `KeyPairWrapper` handle after a completed `__init__`: the generated
name and the local private-key file path
`os.path.join(tempfile.gettempdir(), name + ".pem")`. -/
structure KeyPairWrapper where
  name : String
  key_file : String
deriving DecidableEq, Repr

/-- A boto3 instance handle, identified by the provider-assigned id. -/
structure Ec2Instance where
  id : String
deriving DecidableEq, Repr

/-- The process-wide module-level lists of `ec2_wrapper.py`. -/
structure Registries where
  EC2_INSTANCES : List Ec2Instance
  EC2_KEYPAIR_WRAPPERS : List KeyPairWrapper
deriving DecidableEq, Repr

/-- Cloud-side state plus the process-wide registries. -/
structure SysState where
  cloud : CloudState
  regs : Registries
deriving DecidableEq, Repr

/-- The fields of an `EC2InstanceWrapper` object; `inst` is
`self.instance` and `key_pair` is `self.key_pair`, both initialised to
`None` by `__init__` before `_init_resources` runs. -/
structure EC2InstanceWrapper where
  name : String
  inst : Option Ec2Instance
  key_pair : Option KeyPairWrapper
deriving DecidableEq, Repr

/-- A cloud or filesystem call made during cleanup. -/
inductive CleanEvent
  | terminate (id : String)
  | deleteKeyPair (name : String)
  | removeFile (path : String)
deriving DecidableEq, Repr

def CleanEvent.isTerminate : CleanEvent → Bool
  | .terminate _ => true
  | _ => false

def CleanEvent.isDeleteKeyPair : CleanEvent → Bool
  | .deleteKeyPair _ => true
  | _ => false

/-- Python `list.remove(x)`: removes the first occurrence of `x`, raising
`ValueError` when `x` is not in the list. -/
def listRemove {α : Type} [DecidableEq α] (xs : List α) (x : α) :
    Except PyError (List α) :=
  if x ∈ xs then .ok (xs.erase x) else .error .valueError

/-- `KeyPairWrapper.destroy`: `self.key_pair.delete()` followed by
`os.remove(self.key_file)` inside `try/... except OSError: pass`.
`delete_ok` and `remove_ok` inject failures of the two external calls.
A failing `delete` raises; a failing `os.remove` (`OSError`, e.g. the
file is already gone) is swallowed and merely performs no removal.  The
result carries the cloud state and the calls that took effect, in
order. -/
def KeyPairWrapper.destroy (kp : KeyPairWrapper) (delete_ok remove_ok : Bool)
    (cloud : CloudState) : Except PyError (CloudState × List CleanEvent) :=
  if delete_ok then
    let cloud := { cloud with keyPairs := cloud.keyPairs.erase kp.name }
    if remove_ok then
      .ok (cloud, [.deleteKeyPair kp.name, .removeFile kp.key_file])
    else
      .ok (cloud, [.deleteKeyPair kp.name])
  else .error .apiError

/-- `EC2InstanceWrapper.destroy`: when `self.instance is not None`,
terminate it and `EC2_INSTANCES.remove(self.instance)`; when
`self.key_pair is not None`, `self.key_pair.destroy()` and
`EC2_KEYPAIR_WRAPPERS.remove(self.key_pair)`.  The cloud calls themselves
are taken to succeed here (failure injection for the keypair path is
studied on `KeyPairWrapper.destroy` directly); the `list.remove` calls
raise `ValueError` when the handle is not registered, and an error result
carries the state reached when the exception was raised. -/
def EC2InstanceWrapper.destroy (w : EC2InstanceWrapper) (st : SysState) :
    Except (PyError × SysState) (SysState × List CleanEvent) :=
  let step1 : Except (PyError × SysState) (SysState × List CleanEvent) :=
    match w.inst with
    | none => .ok (st, [])
    | some i =>
      let cloud1 : CloudState :=
        { st.cloud with instances := st.cloud.instances.erase i.id }
      match listRemove st.regs.EC2_INSTANCES i with
      | .error e => .error (e, { st with cloud := cloud1 })
      | .ok l =>
        .ok ({ cloud := cloud1, regs := { st.regs with EC2_INSTANCES := l } },
             [.terminate i.id])
  match step1 with
  | .error e => .error e
  | .ok (st1, evs) =>
    match w.key_pair with
    | none => .ok (st1, evs)
    | some kp =>
      match kp.destroy true true st1.cloud with
      | .error e => .error (e, st1)
      | .ok (cloud2, evs2) =>
        match listRemove st1.regs.EC2_KEYPAIR_WRAPPERS kp with
        | .error e => .error (e, { st1 with cloud := cloud2 })
        | .ok l =>
          .ok ({ cloud := cloud2,
                 regs := { st1.regs with EC2_KEYPAIR_WRAPPERS := l } },
               evs ++ evs2)

/-- The statements of the provisioning sequence that can raise.  An
execution is indexed by the one statement (if any) at which an exception
occurs; a listed statement only raises when execution reaches it. -/
inductive FailPoint
  /-- `boto3.resource('ec2')` in `_init_resources`. -/
  | boto3Resource
  /-- `service.create_key_pair(KeyName=name)` in `KeyPairWrapper.__init__`. -/
  | create_key_pair
  /-- `open(...)`/`write(...)` of the private-key file in `KeyPairWrapper.__init__`. -/
  | writeKeyFile
  /-- `os.chmod(self.key_file, 0o400)` in `KeyPairWrapper.__init__`. -/
  | chmod
  /-- `self.ec2.create_instances(...)` in `_init_resources`. -/
  | create_instances
  /-- `self.ec2.create_tags(...)` in `_init_resources`. -/
  | create_tags
  /-- `self.instance.wait_until_running()` in `_init_resources`. -/
  | wait_until_running
  /-- An exception inside `self.wait_public_ip()` in `_init_resources`. -/
  | waitPublicIp
deriving DecidableEq, Repr

/-- The exception each failure point raises. -/
def FailPoint.raisedError : FailPoint → PyError
  | .boto3Resource => .apiError
  | .create_key_pair => .apiError
  | .writeKeyFile => .osError
  | .chmod => .osError
  | .create_instances => .apiError
  | .create_tags => .apiError
  | .wait_until_running => .apiError
  | .waitPublicIp => .apiError

/-- `KeyPairWrapper.__init__(service, name)`: `service.create_key_pair`
(after which the keypair exists cloud-side), then write the key material
to `key_file` and `chmod 0o400` it — either of which can raise with the
cloud keypair already created and the wrapper object never returned. -/
def KeyPairWrapper.init (name : String) (fp : Option FailPoint)
    (cloud : CloudState) : Except (PyError × CloudState) (KeyPairWrapper × CloudState) :=
  if fp = some .create_key_pair then .error (.apiError, cloud)
  else
    let cloud := { cloud with keyPairs := cloud.keyPairs ++ [name] }
    if fp = some .writeKeyFile then .error (.osError, cloud)
    else if fp = some .chmod then .error (.osError, cloud)
    else .ok ({ name := name, key_file := "/tmp/" ++ name ++ ".pem" }, cloud)

/-- Body of `EC2InstanceWrapper._init_resources` (before the
`clean_aws_resources` decorator).  `instId` is the provider-chosen id of
the created instance.  Statement order follows the source: create the
keypair wrapper and assign `self.key_pair`, append it to
`EC2_KEYPAIR_WRAPPERS`, split the security-group ids (a string method
that cannot raise, feeding only the `create_instances` call),
`create_instances`, extend `EC2_INSTANCES` with the result, assign
`self.instance`, `create_tags`, `wait_until_running`, `wait_public_ip`.
An error result carries the exception, `self` as assigned so far, and the
state, for the decorator to run `destroy` on. -/
def init_resources_body (name instId : String) (fp : Option FailPoint)
    (st : SysState) :
    Except (PyError × EC2InstanceWrapper × SysState) (EC2InstanceWrapper × SysState) :=
  let w : EC2InstanceWrapper := { name := name, inst := none, key_pair := none }
  if fp = some .boto3Resource then .error (.apiError, w, st)
  else
    match KeyPairWrapper.init name fp st.cloud with
    | .error (e, cloud) => .error (e, w, { st with cloud := cloud })
    | .ok (kp, cloud) =>
      let w := { w with key_pair := some kp }
      let st : SysState :=
        { cloud := cloud,
          regs := { st.regs with
            EC2_KEYPAIR_WRAPPERS := st.regs.EC2_KEYPAIR_WRAPPERS ++ [kp] } }
      if fp = some .create_instances then .error (.apiError, w, st)
      else
        let inst : Ec2Instance := { id := instId }
        let st : SysState :=
          { cloud := { st.cloud with instances := st.cloud.instances ++ [instId] },
            regs := { st.regs with
              EC2_INSTANCES := st.regs.EC2_INSTANCES ++ [inst] } }
        let w := { w with inst := some inst }
        if fp = some .create_tags then .error (.apiError, w, st)
        else if fp = some .wait_until_running then .error (.apiError, w, st)
        else if fp = some .waitPublicIp then .error (.apiError, w, st)
        else .ok (w, st)

/-- `_init_resources` as wrapped by the `clean_aws_resources` decorator:
on any exception, `args[0].destroy()` runs and the exception is
re-raised; if `destroy` itself raises, that exception propagates
instead. -/
def init_resources (name instId : String) (fp : Option FailPoint)
    (st : SysState) : Except (PyError × SysState) (EC2InstanceWrapper × SysState) :=
  match init_resources_body name instId fp st with
  | .ok r => .ok r
  | .error (e, w, st1) =>
    match w.destroy st1 with
    | .ok (st2, _) => .error (e, st2)
    | .error (e2, st2) => .error (e2, st2)

/-- The keypair half of `clean_aws_resources_atexit`: `for key_pair in
EC2_KEYPAIR_WRAPPERS: key_pair.destroy()`, accumulating the calls made.
`destroy` with `delete_ok` cannot raise, so the loop runs to the end. -/
def atexit_destroy_keypairs : List KeyPairWrapper → CloudState →
    CloudState × List CleanEvent
  | [], cloud => (cloud, [])
  | kp :: rest, cloud =>
    match kp.destroy true true cloud with
    | .ok (cloud1, evs) =>
      let r := atexit_destroy_keypairs rest cloud1
      (r.1, evs ++ r.2)
    | .error _ => (cloud, [])

/-- `clean_aws_resources_atexit`: `for instance in EC2_INSTANCES:
instance.terminate()` then `for key_pair in EC2_KEYPAIR_WRAPPERS:
key_pair.destroy()`.  Returns the state after the hook and the trace of
calls made (the registries themselves are not mutated by the hook). -/
def clean_aws_resources_atexit (st : SysState) : SysState × List CleanEvent :=
  let cloud1 : CloudState :=
    st.regs.EC2_INSTANCES.foldl
      (fun c i => { c with instances := c.instances.erase i.id }) st.cloud
  let evs1 : List CleanEvent :=
    st.regs.EC2_INSTANCES.map (fun i => CleanEvent.terminate i.id)
  let r := atexit_destroy_keypairs st.regs.EC2_KEYPAIR_WRAPPERS cloud1
  ({ st with cloud := r.1 }, evs1 ++ r.2)

/-- The empty start state: no cloud resources, both registries empty. -/
def emptySys : SysState := ⟨⟨[], []⟩, ⟨[], []⟩⟩

/-- A concrete generated wrapper name (`'avocado-test-%s' % short_id`). -/
def testName : String := "avocado-test-0a1b2c3d"

/-- A concrete provider-assigned instance id. -/
def testInstId : String := "i-0123456789abcdef0"

/-! ## `EC2TestResult.setup` (`plugins/ec2.py`) -/

/-- The remote-runner attributes on `args` that `EC2TestResult.setup`
assigns for the host framework's remote runner. -/
structure RemoteArgs where
  remote_hostname : Option String
  remote_key_file : Option String
  remote_port : Option Nat
  remote_username : Option String
  remote_timeout : Option Nat
  remote_password : Option String
  remote_no_copy : Option Bool
deriving DecidableEq, Repr

/-- The parameter list of `EC2InstanceWrapper.__init__` in
`ec2_wrapper.py`, besides `self`: `def __init__(self, args)`. -/
def EC2InstanceWrapper.initParams : List String := ["args"]

/-- The positional arguments passed to the constructor at the call site
in `EC2TestResult.setup`: `EC2InstanceWrapper(self.args, self.stream)`. -/
def setupInitCallArgs : List String := ["self.args", "self.stream"]

/-- `EC2TestResult.setup`.  Python checks the arity of the
`EC2InstanceWrapper(self.args, self.stream)` call against
`EC2InstanceWrapper.__init__(self, args)` at call time and raises
`TypeError` on mismatch; on any exception `setup` runs `tear_down` and
re-raises.  When the construction succeeds, the subsequent assignments
set the remote-runner attributes from the provisioned instance
(`public_ip`, `key_file`) and the parsed options (`ssh_port`,
`ami_username`, `login_timeout`). -/
def setup (ssh_port : Nat) (ami_username : String) (login_timeout : Nat)
    (public_ip : String) (key_file : String) (args : RemoteArgs) :
    Except PyError RemoteArgs :=
  if setupInitCallArgs.length ≠ EC2InstanceWrapper.initParams.length then
    .error .typeError
  else
    .ok { args with
      remote_hostname := some public_ip,
      remote_key_file := some key_file,
      remote_port := some ssh_port,
      remote_username := some ami_username,
      remote_timeout := some login_timeout,
      remote_password := none,
      remote_no_copy := some false }

/-! ## Theorems -/

/-- C2: for each distribution type in the enumeration
`VALID_DISTROS = [fedora, el, ubuntu]`, `_install_avocado` selects the
hard-coded repository-fetch command followed by the platform
package-manager install command and runs both remotely with the fixed
timeout 300; for every value outside the enumeration it raises
`ValueError` with no remote command run. -/
theorem install_avocado_spec :
    VALID_DISTROS = ["fedora", "el", "ubuntu"] ∧
    install_avocado "fedora" =
      .ok [⟨"sudo curl https://repos-avocadoproject.rhcloud.com/static/avocado-fedora.repo -o /etc/yum.repos.d/avocado.repo", 300⟩,
           ⟨"sudo dnf install -y avocado", 300⟩] ∧
    install_avocado "el" =
      .ok [⟨"sudo curl https://repos-avocadoproject.rhcloud.com/static/avocado-el.repo -o /etc/yum.repos.d/avocado.repo", 300⟩,
           ⟨"sudo yum install -y avocado", 300⟩] ∧
    install_avocado "ubuntu" =
      .ok [⟨"sudo echo \"deb http://ppa.launchpad.net/lmr/avocado/ubuntu wily main\" > /etc/apt/sources.list.d/avocado.list", 300⟩,
           ⟨"sudo apt-get install --yes --allow-unauthenticated avocado", 300⟩] ∧
    ∀ d : String, d ∉ VALID_DISTROS → install_avocado d = .error .valueError := by
  refine ⟨by decide, rfl, rfl, rfl, ?_⟩
  intro d hd
  unfold install_avocado
  rw [if_pos hd]

/-- Witness for `install_avocado_spec`: the unsupported value `"debian"`
raises before any remote command. -/
theorem install_avocado_spec_witness :
    install_avocado "debian" = .error .valueError :=
  install_avocado_spec.2.2.2.2 "debian" (by decide)

/-- C9: `KeyPairWrapper.destroy` always issues the cloud-side keypair
delete first; a failure of the local private-key file removal is
swallowed (the call still succeeds, with the delete already done and the
file left behind), while a failure of the delete itself propagates — the
file removal is the only suppressed failure. -/
theorem keypair_destroy_spec (kp : KeyPairWrapper) (cloud : CloudState) :
    (∀ remove_ok : Bool,
      kp.destroy true remove_ok cloud =
        .ok ({ cloud with keyPairs := cloud.keyPairs.erase kp.name },
             .deleteKeyPair kp.name ::
               (if remove_ok then [.removeFile kp.key_file] else []))) ∧
    (∀ remove_ok : Bool, kp.destroy false remove_ok cloud = .error .apiError) := by
  constructor <;> intro r <;> cases r <;> rfl

/-- Helper: the keypair loop of the exit hook issues exactly one
cloud-side delete per registered keypair and no terminate calls. -/
lemma atexit_destroy_keypairs_counts (kps : List KeyPairWrapper) (c : CloudState) :
    ((atexit_destroy_keypairs kps c).2.countP CleanEvent.isDeleteKeyPair) = kps.length ∧
    ((atexit_destroy_keypairs kps c).2.countP CleanEvent.isTerminate) = 0 := by
  induction kps generalizing c with
  | nil => simp [atexit_destroy_keypairs]
  | cons kp rest ih =>
    have h := ih ({ c with keyPairs := c.keyPairs.erase kp.name })
    simp [atexit_destroy_keypairs, KeyPairWrapper.destroy, List.countP_cons,
          CleanEvent.isDeleteKeyPair, CleanEvent.isTerminate, h.1, h.2]

/-- C5: for registries holding `N` instance handles and `M` keypair
handles, the exit hook `clean_aws_resources_atexit` issues exactly `N`
terminate calls (one per registered instance) and exactly `M` keypair
destroy calls (each performing exactly one cloud-side delete, counted
here by its `deleteKeyPair` event). -/
theorem clean_aws_resources_atexit_spec (st : SysState) :
    ((clean_aws_resources_atexit st).2.countP CleanEvent.isTerminate)
        = st.regs.EC2_INSTANCES.length ∧
    ((clean_aws_resources_atexit st).2.countP CleanEvent.isDeleteKeyPair)
        = st.regs.EC2_KEYPAIR_WRAPPERS.length := by
  have h := atexit_destroy_keypairs_counts st.regs.EC2_KEYPAIR_WRAPPERS
    (st.regs.EC2_INSTANCES.foldl
      (fun c i => { c with instances := c.instances.erase i.id }) st.cloud)
  constructor <;>
    simp [clean_aws_resources_atexit, List.countP_append, List.countP_map,
          Function.comp_def, CleanEvent.isTerminate, CleanEvent.isDeleteKeyPair,
          h.1, h.2, List.countP_true]

/-- Helper: the wait loop never reads the login-timeout value. -/
lemma wait_public_ip_ignores_timeout (t₁ t₂ : Nat) (ip : Nat → Option String) :
    ∀ fuel k, wait_public_ip t₁ ip k fuel = wait_public_ip t₂ ip k fuel := by
  intro fuel
  induction fuel with
  | zero => intro k; rfl
  | succ n ih => intro k; simp [wait_public_ip, ih]

/-- Helper: `Option.map` preserves `isSome`. -/
lemma isSome_opt_map {α β : Type} (f : α → β) (o : Option α) :
    (o.map f).isSome = o.isSome := by cases o <;> rfl

/-- Helper: the bounded model finishes within `fuel` iterations from
observation `k` exactly when some observation within the next `fuel`
steps reports an address. -/
lemma wait_public_ip_isSome_iff (t : Nat) (ip : Nat → Option String) :
    ∀ fuel k, (wait_public_ip t ip k fuel).isSome ↔
      ∃ j, j ≤ fuel ∧ (ip (k + j)).isSome := by
  intro fuel
  induction fuel with
  | zero =>
    intro k
    by_cases h : (ip k).isSome <;>
      simp [wait_public_ip, h, Nat.le_zero]
  | succ n ih =>
    intro k
    by_cases h : (ip k).isSome
    · simpa [wait_public_ip, h] using ⟨0, Nat.zero_le _, by simpa using h⟩
    · rw [show wait_public_ip t ip k (n + 1) =
          (wait_public_ip t ip (k + 1) n).map
            (fun tr => WaitEvent.sleep 1 :: WaitEvent.reload :: tr) by
        simp [wait_public_ip, h]]
      rw [isSome_opt_map]
      rw [ih (k + 1)]
      constructor
      · rintro ⟨j, hj, hip⟩
        exact ⟨j + 1, by omega, by rw [show k + (j + 1) = k + 1 + j by omega]; exact hip⟩
      · rintro ⟨j, hj, hip⟩
        cases j with
        | zero => exact absurd (by simpa using hip) h
        | succ j' =>
          exact ⟨j', by omega, by rw [show k + 1 + j' = k + (j' + 1) by omega]; exact hip⟩

/-- Helper: every event of a completed wait trace is `sleep 1` or
`reload`. -/
lemma wait_public_ip_trace (t : Nat) (ip : Nat → Option String) :
    ∀ fuel k tr, wait_public_ip t ip k fuel = some tr →
      ∀ e ∈ tr, e = WaitEvent.sleep 1 ∨ e = WaitEvent.reload := by
  intro fuel
  induction fuel with
  | zero =>
    intro k tr h
    by_cases hk : (ip k).isSome <;> simp [wait_public_ip, hk] at h
    subst h
    simp
  | succ n ih =>
    intro k tr h
    by_cases hk : (ip k).isSome
    · simp [wait_public_ip, hk] at h
      subst h
      simp
    · simp [wait_public_ip, hk] at h
      obtain ⟨tr', htr', rfl⟩ := h
      intro e he
      simp only [List.mem_cons] at he
      rcases he with rfl | rfl | he
      · exact Or.inl rfl
      · exact Or.inr rfl
      · exact ih (k + 1) tr' htr' e he

/-- C7: the wait for network reachability polls at a fixed one-second
interval (`sleep(1)` then `reload()`) for as long as the reported public
IP is `None`, with no iteration bound: the declared login-timeout option
is never consulted (two runs with different timeout values are
identical), and the loop terminates — i.e. some fuel bound suffices for
the model — if and only if the provider eventually reports a public
IP. -/
theorem wait_public_ip_spec (ip : Nat → Option String) :
    (∀ t₁ t₂ k fuel, wait_public_ip t₁ ip k fuel = wait_public_ip t₂ ip k fuel) ∧
    ((∃ fuel, (wait_public_ip 120 ip 0 fuel).isSome) ↔ ∃ n, (ip n).isSome) ∧
    (∀ fuel tr, wait_public_ip 120 ip 0 fuel = some tr →
      ∀ s, WaitEvent.sleep s ∈ tr → s = 1) := by
  refine ⟨fun t₁ t₂ k fuel => wait_public_ip_ignores_timeout t₁ t₂ ip fuel k, ?_, ?_⟩
  · constructor
    · rintro ⟨fuel, h⟩
      obtain ⟨j, -, hip⟩ := (wait_public_ip_isSome_iff 120 ip fuel 0).mp h
      exact ⟨j, by simpa using hip⟩
    · rintro ⟨n, h⟩
      exact ⟨n, (wait_public_ip_isSome_iff 120 ip n 0).mpr
        ⟨n, Nat.le_refl n, by simpa using h⟩⟩
  · intro fuel tr h s hs
    have hev := wait_public_ip_trace 120 ip fuel 0 tr h (WaitEvent.sleep s) hs
    cases hev with
    | inl he => injection he
    | inr he => exact absurd he (by simp)

/-- Witness for `wait_public_ip_spec`: for an instance whose third
observation carries an address, the loop terminates, and the sleeps of
its trace last one second. -/
theorem wait_public_ip_spec_witness :
    (∃ n, ((fun m => if m = 2 then some "198.51.100.7" else none) n).isSome) ∧
    (1 : Nat) = 1 :=
  ⟨(wait_public_ip_spec (fun m => if m = 2 then some "198.51.100.7" else none)).2.1.mp
      ⟨5, by decide⟩,
   (wait_public_ip_spec (fun m => if m = 2 then some "198.51.100.7" else none)).2.2 5
      [.sleep 1, .reload, .sleep 1, .reload] (by decide) 1 (by decide)⟩

/-- Helper: attribute lookups used by `run`. -/
lemma pygetattr_ami (args : AppArgs) :
    pygetattr args "ec2_ami_id" = args.ec2_ami_id := rfl

lemma pygetattr_sg (args : AppArgs) :
    pygetattr args "ec2_security_group_ids" = args.ec2_security_group_ids := rfl

lemma pygetattr_subnet (args : AppArgs) :
    pygetattr args "ec2_subnet_id" = args.ec2_subnet_id := rfl

lemma pygetattr_itype (args : AppArgs) :
    pygetattr args "ec2_instance_type" = args.ec2_instance_type := rfl

/-- Helper: closed form of `_check_required_args` on the argument list
`run` passes. -/
lemma check_required_args_eval (args : AppArgs) :
    check_required_args args "ec2_ami_id"
        ["ec2_ami_id", "ec2_security_group_ids", "ec2_subnet_id",
         "ec2_instance_type"] =
      if !args.has_ec2_args || !truthy args.ec2_ami_id then .ok false
      else if truthy args.ec2_security_group_ids &&
              truthy args.ec2_subnet_id && truthy args.ec2_instance_type then
        .ok true
      else .error AVOCADO_FAIL := by
  cases ha : args.has_ec2_args <;> cases h1 : truthy args.ec2_ami_id <;>
    cases h2 : truthy args.ec2_security_group_ids <;>
    cases h3 : truthy args.ec2_subnet_id <;>
    cases h4 : truthy args.ec2_instance_type <;>
      simp [check_required_args, List.filter_cons, List.filter_nil,
            pygetattr_ami, pygetattr_sg, pygetattr_subnet, pygetattr_itype,
            ha, h1, h2, h3, h4]

/-- C6: with the EC2 attribute group present and the AMI-ID flag set,
`EC2Run.run` exits with the host framework's fixed failure code when any
of the required flags (security-group ids, subnet id, instance type) is
unset, and otherwise stores the EC2 result class and remote test runner
on the parsed arguments; when the enabling flag is absent or unset, `run`
returns the arguments unchanged and does not exit. -/
theorem ec2run_run_spec (args : AppArgs) :
    (args.has_ec2_args = true → truthy args.ec2_ami_id = true →
      (truthy args.ec2_security_group_ids = false ∨
       truthy args.ec2_subnet_id = false ∨
       truthy args.ec2_instance_type = false) →
      EC2Run.run args = .error AVOCADO_FAIL) ∧
    (args.has_ec2_args = true → truthy args.ec2_ami_id = true →
      truthy args.ec2_security_group_ids = true →
      truthy args.ec2_subnet_id = true →
      truthy args.ec2_instance_type = true →
      EC2Run.run args = .ok { args with remote_result := some "EC2TestResult",
                                        test_runner := some "RemoteTestRunner" }) ∧
    ((args.has_ec2_args = false ∨ truthy args.ec2_ami_id = false) →
      EC2Run.run args = .ok args) := by
  refine ⟨?_, ?_, ?_⟩
  · intro ha h1 h
    rcases h with h | h | h <;>
      simp [EC2Run.run, check_required_args_eval, ha, h1, h]
  · intro ha h1 h2 h3 h4
    simp [EC2Run.run, check_required_args_eval, ha, h1, h2, h3, h4]
  · intro h
    rcases h with h | h <;>
      simp [EC2Run.run, check_required_args_eval, h]

/-- Witness for `ec2run_run_spec`: a fully populated argument set gets
the result class and runner stored; one missing the subnet id exits with
the failure code; one without the AMI id is left unchanged. -/
theorem ec2run_run_spec_witness :
    EC2Run.run { has_ec2_args := true, ec2_ami_id := some "ami-e08adb8a",
                 ec2_security_group_ids := some "sg-a5e1d7b0",
                 ec2_subnet_id := some "subnet-ec4a72c4",
                 ec2_instance_type := some "c4.xlarge",
                 remote_result := none, test_runner := none } =
      .ok { has_ec2_args := true, ec2_ami_id := some "ami-e08adb8a",
            ec2_security_group_ids := some "sg-a5e1d7b0",
            ec2_subnet_id := some "subnet-ec4a72c4",
            ec2_instance_type := some "c4.xlarge",
            remote_result := some "EC2TestResult",
            test_runner := some "RemoteTestRunner" } ∧
    EC2Run.run { has_ec2_args := true, ec2_ami_id := some "ami-e08adb8a",
                 ec2_security_group_ids := some "sg-a5e1d7b0",
                 ec2_subnet_id := none, ec2_instance_type := some "c4.xlarge",
                 remote_result := none, test_runner := none } =
      .error AVOCADO_FAIL ∧
    EC2Run.run { has_ec2_args := true, ec2_ami_id := none,
                 ec2_security_group_ids := none, ec2_subnet_id := none,
                 ec2_instance_type := none,
                 remote_result := none, test_runner := none } =
      .ok { has_ec2_args := true, ec2_ami_id := none,
            ec2_security_group_ids := none, ec2_subnet_id := none,
            ec2_instance_type := none,
            remote_result := none, test_runner := none } :=
  ⟨(ec2run_run_spec _).2.1 rfl rfl rfl rfl rfl,
   (ec2run_run_spec _).1 rfl rfl (Or.inr (Or.inl rfl)),
   (ec2run_run_spec _).2.2 (Or.inr rfl)⟩

/-! ## Lifecycle executions used by the registry claims -/

/-- The keypair handle the concrete happy-path run constructs. -/
def kpLit : KeyPairWrapper := ⟨testName, "/tmp/avocado-test-0a1b2c3d.pem"⟩

/-- The instance handle the concrete happy-path run constructs. -/
def instLit : Ec2Instance := ⟨testInstId⟩

/-- The wrapper after a completed `_init_resources`. -/
def wLit : EC2InstanceWrapper := ⟨testName, some instLit, some kpLit⟩

/-- The system state after a completed `_init_resources` from
`emptySys`. -/
def st1Lit : SysState := ⟨⟨[testName], [testInstId]⟩, ⟨[instLit], [kpLit]⟩⟩

/-- The system state after destroying the happy-path wrapper. -/
def st2Lit : SysState := ⟨⟨[], []⟩, ⟨[], []⟩⟩

/-- The provisioning run from the empty state with failure point `fp`. -/
def provisionRun (fp : Option FailPoint) :
    Except (PyError × SysState) (EC2InstanceWrapper × SysState) :=
  init_resources testName testInstId fp emptySys

/-- The registries after the provisioning run (in both outcomes the
result carries the final state). -/
def provisionRegs (fp : Option FailPoint) : Registries :=
  match provisionRun fp with
  | .ok (_, st) => st.regs
  | .error (_, st) => st.regs

/-- The cloud-side resources after the provisioning run. -/
def provisionCloud (fp : Option FailPoint) : CloudState :=
  match provisionRun fp with
  | .ok (_, st) => st.cloud
  | .error (_, st) => st.cloud

/-- The exception, if any, that the provisioning run propagates. -/
def provisionRaised (fp : Option FailPoint) : Option PyError :=
  match provisionRun fp with
  | .ok _ => none
  | .error (e, _) => some e

/-- Destroying the wrapper produced by the successful provisioning
run. -/
def provisionDestroy : Except (PyError × SysState) (SysState × List CleanEvent) :=
  match provisionRun none with
  | .ok (w, st) => w.destroy st
  | .error (e, st) => .error (e, st)

/-- The wrapper (`self`) on which the `clean_aws_resources` decorator
calls `destroy` after the body fails at `fp`.  Every listed step raises
when reached, so the body with a failure point always errors; the `ok`
arm is unreachable and returns the same wrapper for totality. -/
def cleanup_wrapper (fp : FailPoint) : EC2InstanceWrapper :=
  match init_resources_body testName testInstId (some fp) emptySys with
  | .error (_, w, _) => w
  | .ok (w, _) => w

/-- The outcome of the decorator's `destroy` call after the body fails at
`fp` (the unreachable `ok` arm destroys the final state, the same
operation). -/
def cleanup_result (fp : FailPoint) :
    Except (PyError × SysState) (SysState × List CleanEvent) :=
  match init_resources_body testName testInstId (some fp) emptySys with
  | .error (_, w, st1) => w.destroy st1
  | .ok (w, st) => w.destroy st

/-- The cleanup calls made by the decorator's `destroy` after a failure
at `fp`. -/
def cleanup_events (fp : FailPoint) : List CleanEvent :=
  match cleanup_result fp with
  | .ok (_, evs) => evs
  | .error _ => []

/-- Whether an `Except` result is a success. -/
def isOkExcept {ε α : Type} : Except ε α → Bool
  | .ok _ => true
  | .error _ => false

/-- C1 counterexample: the claim requires every created keypair's handle
to be appended to `EC2_KEYPAIR_WRAPPERS` before any subsequent operation
that could fail.  In the execution whose private-key file write raises
(a step after `create_key_pair` and before the registry append), the run
fails with the keypair created cloud-side but the registry still empty:
the created keypair was never registered — and, being unregistered and
unassigned, it is not destroyed by the cleanup either. -/
theorem registry_discipline_counterexample :
    init_resources testName testInstId (some .writeKeyFile) emptySys =
      .error (.osError, ⟨⟨[testName], []⟩, ⟨[], []⟩⟩) := by decide

/-- C1 (amended): instance handles are appended to `EC2_INSTANCES`
immediately upon creation and before any subsequent operation that could
fail, and every registered handle is removed from its registry exactly
once, when it is destroyed — a successful run registers exactly one
instance and one keypair handle and `destroy` empties both registries
while terminating/deleting each resource once; every failed run leaves
both registries empty (no double registration, no orphaned entry) and no
live instance behind.  Keypair handles, however, are appended only after
`KeyPairWrapper.__init__` completes, so a failure of the key-file write
or chmod — after the cloud-side keypair is created — leaves a created
but never-registered (and undestroyed) cloud keypair; every other
failure point leaves no cloud keypair behind. -/
theorem registry_discipline_spec :
    provisionRegs none = ⟨[instLit], [kpLit]⟩ ∧
    provisionDestroy =
      .ok (st2Lit, [.terminate testInstId, .deleteKeyPair testName,
                    .removeFile kpLit.key_file]) ∧
    (∀ fp : FailPoint, provisionRegs (some fp) = ⟨[], []⟩) ∧
    (∀ fp : FailPoint, provisionCloud (some fp) =
      ⟨if fp = .writeKeyFile ∨ fp = .chmod then [testName] else [], []⟩) := by
  refine ⟨by decide, by decide, ?_, ?_⟩
  · intro fp; cases fp <;> decide
  · intro fp; cases fp <;> decide

/-- C3 counterexample: the claim asserts that a second `destroy` on the
same wrapper does not raise.  On the concrete happy-path wrapper, the
first `destroy` succeeds and removes both handles, but the second
`destroy` raises `ValueError`: `destroy` never resets `self.instance`,
so it retries `EC2_INSTANCES.remove(self.instance)` on a list that no
longer contains the handle. -/
theorem destroy_double_counterexample :
    init_resources testName testInstId none emptySys = .ok (wLit, st1Lit) ∧
    wLit.destroy st1Lit =
      .ok (st2Lit, [.terminate testInstId, .deleteKeyPair testName,
                    .removeFile kpLit.key_file]) ∧
    wLit.destroy st2Lit = .error (.valueError, st2Lit) := by decide

/-- C3 (amended): when both handles are assigned and registered,
`destroy` removes each from its registry exactly once (the removal is
`List.erase`, dropping exactly the first occurrence) and issues one
terminate, one keypair delete and one file removal; but calling
`destroy` again — the fields not having been reset — raises `ValueError`
at the `EC2_INSTANCES.remove` call as the handle is no longer
registered. -/
theorem destroy_once_spec (w : EC2InstanceWrapper) (st : SysState)
    (i : Ec2Instance) (kp : KeyPairWrapper)
    (hi : w.inst = some i) (hk : w.key_pair = some kp) :
    (i ∈ st.regs.EC2_INSTANCES → kp ∈ st.regs.EC2_KEYPAIR_WRAPPERS →
      w.destroy st =
        .ok (⟨⟨st.cloud.keyPairs.erase kp.name, st.cloud.instances.erase i.id⟩,
              ⟨st.regs.EC2_INSTANCES.erase i,
               st.regs.EC2_KEYPAIR_WRAPPERS.erase kp⟩⟩,
             [.terminate i.id, .deleteKeyPair kp.name,
              .removeFile kp.key_file])) ∧
    (i ∉ st.regs.EC2_INSTANCES →
      w.destroy st =
        .error (.valueError,
                { st with cloud := ⟨st.cloud.keyPairs,
                                    st.cloud.instances.erase i.id⟩ })) := by
  constructor
  · intro hmi hmk
    simp [EC2InstanceWrapper.destroy, hi, hk, listRemove, hmi, hmk,
          KeyPairWrapper.destroy]
  · intro hni
    simp [EC2InstanceWrapper.destroy, hi, listRemove, hni]

/-- Witness for `destroy_once_spec`: the happy-path wrapper against its
post-provisioning state (both handles registered) and against the
post-destroy state (instance handle gone). -/
theorem destroy_once_spec_witness :
    wLit.destroy st1Lit =
      .ok (⟨⟨st1Lit.cloud.keyPairs.erase kpLit.name,
             st1Lit.cloud.instances.erase instLit.id⟩,
            ⟨st1Lit.regs.EC2_INSTANCES.erase instLit,
             st1Lit.regs.EC2_KEYPAIR_WRAPPERS.erase kpLit⟩⟩,
           [.terminate instLit.id, .deleteKeyPair kpLit.name,
            .removeFile kpLit.key_file]) ∧
    wLit.destroy st2Lit =
      .error (.valueError,
              { st2Lit with cloud := ⟨st2Lit.cloud.keyPairs,
                                      st2Lit.cloud.instances.erase instLit.id⟩ }) :=
  ⟨(destroy_once_spec wLit st1Lit instLit kpLit rfl rfl).1 (by decide) (by decide),
   (destroy_once_spec wLit st2Lit instLit kpLit rfl rfl).2 (by decide)⟩

/-- C4 counterexample: the claim requires that for a failure occurring
after keypair creation but before instance creation, the keypair is
destroyed and removed from its registry.  When `os.chmod` raises — after
`create_key_pair` succeeded, before `create_instances` runs —
`KeyPairWrapper.__init__` aborts before `self.key_pair` is assigned, so
the decorator's `destroy` skips the keypair branch: the run fails with
the cloud-side keypair still existing (not destroyed) and never in the
registry. -/
theorem provisioning_teardown_counterexample :
    init_resources testName testInstId (some .chmod) emptySys =
      .error (.osError, ⟨⟨[testName], []⟩, ⟨[], []⟩⟩) := by decide

/-- C4 (amended): every exception during the provisioning sequence makes
the decorator invoke the wrapper's `destroy` and re-raise the original
exception (the propagated error is exactly the failing step's own, so
`destroy` raised nothing); the registries are left empty, any created
instance is terminated, and for a failure after the keypair wrapper is
constructed and registered but before instance creation (the
`create_instances` step) the keypair is deleted cloud-side and removed
from its registry.  Only a failure of the key-file write or chmod inside
`KeyPairWrapper.__init__` — after cloud-side creation, before
`self.key_pair` is assigned — escapes the teardown, leaving that keypair
undestroyed. -/
theorem provisioning_teardown_spec :
    (∀ fp : FailPoint, provisionRaised (some fp) = some fp.raisedError) ∧
    (∀ fp : FailPoint, provisionRegs (some fp) = ⟨[], []⟩) ∧
    (∀ fp : FailPoint, (provisionCloud (some fp)).instances = []) ∧
    (provisionCloud (some .create_instances) = ⟨[], []⟩) := by
  refine ⟨?_, ?_, ?_, by decide⟩ <;> · intro fp; cases fp <;> decide

/-- C10: `EC2InstanceWrapper.destroy` is total over partially
initialized wrappers: on a wrapper whose fields are still `None` it does
nothing and returns, and after every possible constructor failure the
decorator's `destroy` call succeeds — performing no terminate when
`self.instance` was never assigned and no keypair delete when
`self.key_pair` was never assigned. -/
theorem destroy_partial_state_spec :
    (∀ st : SysState,
      (⟨testName, none, none⟩ : EC2InstanceWrapper).destroy st = .ok (st, [])) ∧
    (∀ fp : FailPoint, isOkExcept (cleanup_result fp) = true) ∧
    (∀ fp : FailPoint, (cleanup_wrapper fp).inst = none →
      (cleanup_events fp).countP CleanEvent.isTerminate = 0) ∧
    (∀ fp : FailPoint, (cleanup_wrapper fp).key_pair = none →
      (cleanup_events fp).countP CleanEvent.isDeleteKeyPair = 0) := by
  refine ⟨fun st => rfl, ?_, ?_, ?_⟩ <;> · intro fp; cases fp <;> decide

/-- Witness for `destroy_partial_state_spec`: after `create_key_pair`
itself fails nothing was assigned, and the cleanup makes no terminate and
no keypair-delete call. -/
theorem destroy_partial_state_spec_witness :
    (cleanup_events .create_key_pair).countP CleanEvent.isTerminate = 0 ∧
    (cleanup_events .create_key_pair).countP CleanEvent.isDeleteKeyPair = 0 :=
  ⟨destroy_partial_state_spec.2.2.1 .create_key_pair (by decide),
   destroy_partial_state_spec.2.2.2 .create_key_pair (by decide)⟩

/-- C8 (code bug): `EC2TestResult.setup` can never populate the
remote-runner attributes — its very first statement in the `try` block,
`EC2InstanceWrapper(self.args, self.stream)`, passes two positional
arguments to `EC2InstanceWrapper.__init__(self, args)`, which accepts
one, so Python raises `TypeError` before any `remote_*` assignment runs
(the assignments embedded after the arity check are exactly the claimed
mapping, but they are unreachable). -/
theorem setup_spec :
    ∀ (ssh_port : Nat) (ami_username : String) (login_timeout : Nat)
      (public_ip key_file : String) (args : RemoteArgs),
      setup ssh_port ami_username login_timeout public_ip key_file args =
        .error .typeError :=
  fun _ _ _ _ _ _ => rfl
